import Mathlib

/-!
Verification development for the TodoFlow dual-mode data-access layer.

The definitions below are a shallow embedding of the TypeScript source:

* `useTodos` hook (guest-mode local-storage CRUD, the client-side
  filter/sort/stats engine, and the facade operations `addTodo`,
  `updateTodo`, `deleteTodo`, `toggleTodo`, `bulkOperation`);
* `todosAPI` from `services/api.ts` (the parameters the facade sends to the
  remote service, and the client-side `getStats` reduction).

Modelling conventions:

* ISO-8601 timestamp strings (`created_at`, `updated_at`, `due_date`,
  `reminder_date`) are represented by their epoch-millisecond value as a
  `Nat`.  `new Date(s).getTime()` is a strictly monotone embedding of valid
  ISO strings into numbers, and every comparison the source performs on
  these fields (via `new Date(...) <` or lexicographic string comparison of
  same-format ISO strings) agrees with numeric comparison of the
  corresponding `Nat`s.
* JavaScript's `Array.prototype.sort` with the source's comparator is
  modelled by `List.insertionSort` on the "comes-no-later-than" relation
  `comparator a b <= 0`; the source comparator never returns `0`, and the
  spec explicitly leaves the order of comparator-equal elements loose.
* `localStorage` is modelled as an explicit `List Todo` value (the stored
  guest collection) threaded through the operations; React state
  (`todos`, `selectedTodos`) is threaded the same way.
* The remote service is a black box; where an operation of the embedding
  invokes it, the remote endpoint is a function-valued parameter.
-/

namespace TodoFlow

/-- Priority enumeration from `types/todo.ts`: `'low' | 'medium' | 'high'`. -/
inductive Priority
  | low
  | medium
  | high
deriving DecidableEq, Repr

/-- The `Todo` record from `types/todo.ts`.  Timestamp strings are modelled
as epoch-millisecond `Nat`s (see the file header); optional fields are
`Option`s. The purely cosmetic `category_name`/`category_color` fields are
omitted: no embedded operation reads or writes them. -/
structure Todo where
  id : String
  text : String
  description : Option String
  completed : Bool
  priority : Priority
  category : Option String
  due_date : Option Nat
  reminder_date : Option Nat
  tags : List String
  position : Int
  created_at : Nat
  updated_at : Nat
deriving DecidableEq, Repr

/-- Lower-casing a string character-wise, modelling `String.toLowerCase`. -/
def lowerStr (s : String) : String :=
  ⟨s.data.map Char.toLower⟩

/-- Strip leading and trailing whitespace, modelling
`String.prototype.trim`. -/
def trimStr (s : String) : String :=
  ⟨(((s.data.dropWhile Char.isWhitespace).reverse.dropWhile Char.isWhitespace)).reverse⟩

/-- Does the character list start with the given character list? -/
def startsWithChars : List Char → List Char → Bool
  | _, [] => true
  | [], _ :: _ => false
  | a :: as, b :: bs => a == b && startsWithChars as bs

/-- Does the first character list contain the second as a contiguous run?
Models JavaScript `String.prototype.includes`. -/
def hasSubChars : List Char → List Char → Bool
  | _, [] => true
  | [], _ :: _ => false
  | c :: rest, b :: bs => startsWithChars (c :: rest) (b :: bs) || hasSubChars rest (b :: bs)

/-- `strHasSub h n` models `h.includes(n)` on strings. -/
def strHasSub (h n : String) : Bool :=
  hasSubChars h.data n.data

/-- The overdue predicate used by both `calculateGuestStats` and the
`overdue` status filter in `filterAndSortTodos`
(`t.due_date && new Date(t.due_date) < now && !t.completed`). -/
def overdueAt (now : Nat) (t : Todo) : Bool :=
  (match t.due_date with
    | some d => decide (d < now)
    | none => false) && !t.completed

/-- The search predicate of `filterAndSortTodos`:
`todo.text.toLowerCase().includes(q.toLowerCase()) ||
 (todo.description && todo.description.toLowerCase().includes(q.toLowerCase()))`. -/
def searchMatch (q : String) (t : Todo) : Bool :=
  strHasSub (lowerStr t.text) (lowerStr q) ||
    (match t.description with
      | some d => strHasSub (lowerStr d) (lowerStr q)
      | none => false)

/-- The query state held by the `useTodos` hook:
`searchQuery`, `filter`, `sortBy`, `sortOrder`.  Filter and sort keys are
kept as strings, as in the source. -/
structure QuerySpec where
  searchQuery : String
  filter : String
  sortBy : String
  sortOrder : String
deriving DecidableEq, Repr

/-- `priorityOrder` from the sort branch of `filterAndSortTodos`:
`{ high: 3, medium: 2, low: 1 }`. -/
def priorityOrder : Priority → Nat
  | .high => 3
  | .medium => 2
  | .low => 1

/-- The value a comparison key evaluates to: a number or a string. -/
inductive SortVal
  | num (v : Nat)
  | str (v : String)
deriving DecidableEq, Repr

/-- The comparison key of the `filterAndSortTodos` comparator, for the
`SortType` keys the hook exposes (`created_at`, `updated_at`, `due_date`,
`priority`, `text`):
`priority` maps to its ordinal, `text` to the lower-cased title, a key
containing `"date"` (which among the exposed keys means `updated_at`,
`due_date`) to `new Date(value || 0).getTime()` with a missing value as
epoch `0`, and the remaining key `created_at` to the raw field — an ISO
string whose lexicographic order coincides with its numeric model. -/
def sortVal (key : String) (t : Todo) : SortVal :=
  if key = "priority" then .num (priorityOrder t.priority)
  else if key = "text" then .str (lowerStr t.text)
  else if strHasSub key "date" then
    .num ((if key = "due_date" then t.due_date
      else if key = "reminder_date" then t.reminder_date
      else if key = "updated_at" then some t.updated_at
      else none).getD 0)
  else .num t.created_at

/-- Strict `<` on comparison keys (mixed shapes never arise, both sides of
a comparison use the same sort key). -/
def svLt : SortVal → SortVal → Bool
  | .num a, .num b => decide (a < b)
  | .str a, .str b => decide (a < b)
  | .num _, .str _ => false
  | .str _, .num _ => false

/-- "a comes no later than b" under the source comparator
(`comparator a b <= 0`): ascending uses `aValue > bValue ? 1 : -1`,
descending uses `aValue < bValue ? 1 : -1`, and the branch is chosen by
`sortOrder === 'asc'`. -/
def sortLe (sb so : String) (a b : Todo) : Bool :=
  if so = "asc" then !(svLt (sortVal sb b) (sortVal sb a))
  else !(svLt (sortVal sb a) (sortVal sb b))

/-- The search stage of `filterAndSortTodos` (`if (searchQuery) ...`). -/
def searchStage (q : String) (l : List Todo) : List Todo :=
  if q = "" then l else l.filter (fun t => searchMatch q t)

/-- The status-filter stage of `filterAndSortTodos`. -/
def statusStage (f : String) (now : Nat) (l : List Todo) : List Todo :=
  if f = "active" then l.filter (fun t => !t.completed)
  else if f = "completed" then l.filter (fun t => t.completed)
  else if f = "high-priority" then l.filter (fun t => t.priority == Priority.high && !t.completed)
  else if f = "overdue" then l.filter (fun t => overdueAt now t)
  else l

/-- `filterAndSortTodos`: search filter, then status filter, then sort with
the source comparator.  `now` is the clock read inside the `overdue`
branch. -/
def filterAndSortTodos (q : QuerySpec) (now : Nat) (todoList : List Todo) : List Todo :=
  List.insertionSort (fun a b => sortLe q.sortBy q.sortOrder a b = true)
    (statusStage q.filter now (searchStage q.searchQuery todoList))

/-- The `TodoStats` record from `types/todo.ts`:
`{total, active, completed, high_priority, overdue}`. -/
structure TodoStats where
  total : Nat
  active : Nat
  completed : Nat
  high_priority : Nat
  overdue : Nat
deriving DecidableEq, Repr

/-- `calculateGuestStats` from the `useTodos` hook; `now` is the clock read
at the top of the function. -/
def calculateGuestStats (now : Nat) (todoList : List Todo) : TodoStats :=
  { total := todoList.length
    active := (todoList.filter (fun t => !t.completed)).length
    completed := (todoList.filter (fun t => t.completed)).length
    high_priority := (todoList.filter (fun t => t.priority == Priority.high && !t.completed)).length
    overdue := (todoList.filter (fun t => overdueAt now t)).length }

/-- The `overview` record that `todosAPI.getStats` in `services/api.ts`
actually builds: `{ total, completed, pending, overdue }` — note the field
set differs from the declared `TodoStats` interface (`pending` in place of
`active`, and no `high_priority`). -/
structure ApiOverview where
  total : Nat
  completed : Nat
  pending : Nat
  overdue : Nat
deriving DecidableEq, Repr

/-- The client-side stats reduction of `todosAPI.getStats`, applied to the
fetched remote collection: `completed` counts the completed flag,
`pending = total - completed`, `overdue` as in the guest computation. -/
def getStatsOverview (now : Nat) (todos : List Todo) : ApiOverview :=
  { total := todos.length
    completed := (todos.filter (fun t => t.completed)).length
    pending := todos.length - (todos.filter (fun t => t.completed)).length
    overdue := (todos.filter (fun t => overdueAt now t)).length }

/-- Optional creation arguments of `addTodo`
(`{description?, category?, dueDate?, tags?}`). -/
structure AddOptions where
  description : Option String := none
  category : Option String := none
  dueDate : Option Nat := none
  tags : Option (List String) := none
deriving DecidableEq, Repr

/-- Guest branch of `addTodo`: builds the new record (trimmed title,
`completed: false`, `position: 0`, both timestamps stamped `now`, fresh id
`newId` from `generateGuestId`), prepends it (`unshift`) to the stored
collection, persists, and returns it.  No validation is performed. -/
def addTodoG (stored : List Todo) (text : String) (priority : Priority)
    (options : AddOptions) (newId : String) (now : Nat) : List Todo × Todo :=
  let newTodo : Todo :=
    { id := newId
      text := trimStr text
      description := options.description
      completed := false
      priority := priority
      category := options.category
      due_date := options.dueDate
      reminder_date := none
      tags := options.tags.getD []
      position := 0
      created_at := now
      updated_at := now }
  (newTodo :: stored, newTodo)

/-- A `Partial<Todo>` argument of `updateTodo`: each field optionally
present; a present optional field may itself set the target to a value or
clear it.  `updated_at` carries no entry because the source overwrites it
after the spread in every update path. -/
structure TodoPatch where
  id : Option String := none
  text : Option String := none
  description : Option (Option String) := none
  completed : Option Bool := none
  priority : Option Priority := none
  category : Option (Option String) := none
  due_date : Option (Option Nat) := none
  reminder_date : Option (Option Nat) := none
  tags : Option (List String) := none
  position : Option Int := none
  created_at : Option Nat := none
deriving DecidableEq, Repr

/-- The shallow merge `{...old, ...updates, updated_at: now}` performed by
the guest branch of `updateTodo`. -/
def applyPatch (t : Todo) (p : TodoPatch) (now : Nat) : Todo :=
  { id := p.id.getD t.id
    text := p.text.getD t.text
    description := p.description.getD t.description
    completed := p.completed.getD t.completed
    priority := p.priority.getD t.priority
    category := p.category.getD t.category
    due_date := p.due_date.getD t.due_date
    reminder_date := p.reminder_date.getD t.reminder_date
    tags := p.tags.getD t.tags
    position := p.position.getD t.position
    created_at := p.created_at.getD t.created_at
    updated_at := now }

/-- Replace the first record whose id matches (the `findIndex` /
assign-at-index pattern of the guest `updateTodo` branch). -/
def updateFirst (l : List Todo) (id : String) (f : Todo → Todo) : List Todo :=
  match l with
  | [] => []
  | t :: rest => if t.id = id then f t :: rest else t :: updateFirst rest id f

/-- Errors an update can surface, in the spec's taxonomy: `notFound` is the
`NotFound` signal the spec prescribes for a missing id, `remote` wraps a
failure of the remote endpoint.  The embedded source operations only ever
construct `remote`. -/
inductive UpdErr
  | notFound
  | remote (msg : String)
deriving DecidableEq, Repr

deriving instance DecidableEq for Except

/-- A remote `update` endpoint (`todosAPI.update`), as a black-box
parameter: succeeds with the server's merged record or fails. -/
def RemoteUpdate : Type :=
  String → TodoPatch → Except String Todo

/-- Outcome of one `updateTodo` call: the stored guest collection
afterwards, what the caller receives (the merged record, or the raised
error), and whether the remote endpoint was invoked. -/
structure UpdateResult where
  stored : List Todo
  result : Except UpdErr Todo
  remoteCalled : Bool
deriving Repr

/-- `updateTodo` as executed in guest mode.  If the id is found, the first
matching record is shallow-merged with the patch, `updated_at` re-stamped,
the collection persisted, and the merged record returned.  If the id is
absent, the guest `if (todoIndex !== -1)` block is skipped and — the guest
branch having no final `return` — control falls through to the
authenticated-mode code, which invokes the remote `update` endpoint and
surfaces its outcome. -/
def updateTodoG (api : RemoteUpdate) (stored : List Todo) (id : String)
    (p : TodoPatch) (now : Nat) : UpdateResult :=
  match stored.find? (fun t => t.id = id) with
  | some a =>
    { stored := updateFirst stored id (fun t => applyPatch t p now)
      result := .ok (applyPatch a p now)
      remoteCalled := false }
  | none =>
    match api id p with
    | .ok t => { stored := stored, result := .ok t, remoteCalled := true }
    | .error e => { stored := stored, result := .error (.remote e), remoteCalled := true }

/-- Guest branch of `deleteTodo`: drops the matching record from the stored
collection and drops the id from the selection list (the authenticated
branch filters the selection identically). -/
def deleteTodoG (stored : List Todo) (selected : List String) (id : String) :
    List Todo × List String :=
  (stored.filter (fun t => t.id ≠ id), selected.filter (fun s => s ≠ id))

/-- Guest branch of `bulkOperation`: `delete` drops every matching record;
`complete` / `uncomplete` set the completion flag and re-stamp
`updated_at := now` on every matching record in place; any other action
string changes nothing. -/
def bulkOperationG (stored : List Todo) (action : String) (todoIds : List String)
    (now : Nat) : List Todo :=
  if action = "delete" then
    stored.filter (fun t => !(todoIds.contains t.id))
  else if action = "complete" then
    stored.map (fun t =>
      if todoIds.contains t.id then { t with completed := true, updated_at := now } else t)
  else if action = "uncomplete" then
    stored.map (fun t =>
      if todoIds.contains t.id then { t with completed := false, updated_at := now } else t)
  else stored

/-- The guest-mode facade state the toggle path touches: the persisted
collection and the loaded projection (`todos`). -/
structure GuestState where
  stored : List Todo
  projection : List Todo
deriving DecidableEq, Repr

/-- `toggleTodo` in guest mode: looks the id up in the loaded projection;
if absent, nothing happens and nothing is signalled; if present, performs
`updateTodo(id, {completed: !todo.completed})`, after which a successful
update refreshes the projection from the stored collection
(`fetchTodos`), while a raised error propagates before any refresh.
Returns the new state and `some` update outcome (or `none` when the lookup
found nothing and no update was attempted). -/
def toggleTodoG (api : RemoteUpdate) (q : QuerySpec) (now : Nat)
    (st : GuestState) (id : String) : GuestState × Option (Except UpdErr Todo) :=
  match st.projection.find? (fun t => t.id = id) with
  | none => (st, none)
  | some todo =>
    let r := updateTodoG api st.stored id { completed := some (!todo.completed) } now
    match r.result with
    | .error e => ({ st with stored := r.stored }, some (.error e))
    | .ok v =>
      ({ stored := r.stored, projection := filterAndSortTodos q now r.stored }, some (.ok v))

/-- The query parameters `fetchTodos` sends to `todosAPI.getAll` in
authenticated mode: always `sortBy`/`sortOrder`; `search` when non-empty;
`completed=false` for `active`, `completed=true` for `completed`,
`completed=false` (only) for `overdue`, and `priority=high` with
`completed=false` for `high-priority`. -/
structure ApiParams where
  category : Option String
  priority : Option String
  completed : Option Bool
  search : Option String
  sortBy : Option String
  sortOrder : Option String
deriving DecidableEq, Repr

/-- Parameter construction from the authenticated branch of `fetchTodos`. -/
def buildParams (filter searchQuery sortBy sortOrder : String) : ApiParams :=
  { category := none
    priority := if filter = "high-priority" then some "high" else none
    completed :=
      if filter = "active" then some false
      else if filter = "completed" then some true
      else if filter = "overdue" then some false
      else if filter = "high-priority" then some false
      else none
    search := if searchQuery = "" then none else some searchQuery
    sortBy := some sortBy
    sortOrder := some sortOrder }

/-- Rendering of a priority as the string the API layer compares against. -/
def prioString : Priority → String
  | .low => "low"
  | .medium => "medium"
  | .high => "high"

/-- Spec-side model of the remote query, per the documented semantics the
refinement claim assumes (equality filters on category, priority and
completion; case-insensitive substring filter on the title): the filters
`todosAPI.getAll` installs, applied over the remote table.  Sorting is
omitted — the claims about this model compare the selected sets. -/
def remoteQueryModel (p : ApiParams) (table : List Todo) : List Todo :=
  let f1 := match p.category with
    | some c => table.filter (fun t => t.category == some c)
    | none => table
  let f2 := match p.priority with
    | some pr => f1.filter (fun t => prioString t.priority == pr)
    | none => f1
  let f3 := match p.completed with
    | some b => f2.filter (fun t => t.completed == b)
    | none => f2
  match p.search with
  | some s => f3.filter (fun t => strHasSub (lowerStr t.text) (lowerStr s))
  | none => f3

/-! ### Concrete sample data and shared lemmas -/

/-- A plain active task with no due date. -/
def sampleActive : Todo :=
  { id := "a1", text := "write report", description := none, completed := false
    priority := Priority.low, category := none, due_date := none, reminder_date := none
    tags := [], position := 0, created_at := 10, updated_at := 10 }

/-- An active task whose due timestamp (50) lies in the past of clock 100. -/
def sampleOver : Todo :=
  { id := "o1", text := "pay bill", description := none, completed := false
    priority := Priority.medium, category := none, due_date := some 50, reminder_date := none
    tags := [], position := 0, created_at := 10, updated_at := 10 }

/-- Three tasks of priorities low, high, medium (in that input order). -/
def samplePrioLow : Todo :=
  { sampleActive with id := "p-low", priority := Priority.low }

def samplePrioHigh : Todo :=
  { sampleActive with id := "p-high", priority := Priority.high }

def samplePrioMed : Todo :=
  { sampleActive with id := "p-med", priority := Priority.medium }

/-- A remote `update` endpoint that fails every call, as an unauthenticated
guest session's remote call would. -/
def apiRefuse : RemoteUpdate :=
  fun _ _ => Except.error "remote failure"

/-- The hook's initial query state: filter `all`, empty search, sort by
`created_at` descending. -/
def defaultQuery : QuerySpec :=
  ⟨"", "all", "created_at", "desc"⟩

theorem length_filter_not_add (p : Todo → Bool) (l : List Todo) :
    (l.filter (fun t => !p t)).length + (l.filter (fun t => p t)).length = l.length := by
  induction l with
  | nil => rfl
  | cons a l ih =>
    cases h : p a <;>
      simp [List.filter_cons, h, Nat.add_assoc, Nat.add_comm, Nat.add_left_comm, ← ih]

theorem searchStage_sublist (q : String) (l : List Todo) :
    (searchStage q l).Sublist l := by
  unfold searchStage
  split
  · exact List.Sublist.refl l
  · exact List.filter_sublist l

theorem statusStage_sublist (f : String) (now : Nat) (l : List Todo) :
    (statusStage f now l).Sublist l := by
  unfold statusStage
  split
  · exact List.filter_sublist l
  · split
    · exact List.filter_sublist l
    · split
      · exact List.filter_sublist l
      · split
        · exact List.filter_sublist l
        · exact List.Sublist.refl l

theorem filterAndSortTodos_subperm (q : QuerySpec) (now : Nat) (l : List Todo) :
    (filterAndSortTodos q now l).Subperm l :=
  ⟨statusStage q.filter now (searchStage q.searchQuery l),
    (List.perm_insertionSort _ _).symm,
    (statusStage_sublist _ _ _).trans (searchStage_sublist _ _)⟩

/-! ### Claim C1 -/

/-- Claim C1, counterexample.  The claim says a whitespace-only title makes
`add` fail with `ValidationError` and leaves the collection unchanged.  The
embedded guest `addTodo` has no failure outcome at all: on the title
`"   "` over the empty stored collection it persists a record whose text is
trimmed to the empty string, growing the collection from size 0 to size 1. -/
theorem addTodo_blank_title_persists :
    (addTodoG [] "   " Priority.medium {} "guest_1" 100).1.length = 1 ∧
    (addTodoG [] "   " Priority.medium {} "guest_1" 100).2.text = "" ∧
    (addTodoG [] "   " Priority.medium {} "guest_1" 100).1 ≠ [] := by
  decide

/-- Claim C1, amended.  The guest `addTodo` performs no title validation:
for every title (whitespace-only included) it succeeds, prepending to the
stored collection a new record whose text is the trimmed title (possibly
empty), and the collection grows by exactly one. -/
theorem addTodo_never_validates (stored : List Todo) (text : String)
    (prio : Priority) (options : AddOptions) (newId : String) (now : Nat) :
    (addTodoG stored text prio options newId now).1
        = (addTodoG stored text prio options newId now).2 :: stored ∧
    (addTodoG stored text prio options newId now).2.text = trimStr text ∧
    (addTodoG stored text prio options newId now).1.length = stored.length + 1 := by
  refine ⟨rfl, rfl, ?_⟩
  simp [addTodoG]

/-! ### Claim C7 -/

/-- Claim C7: sorting by the `priority` key compares the ordinals
high = 3, medium = 2, low = 1 numerically, and on the concrete collection
with priorities [low, high, medium] the descending sort yields
[high, medium, low]. -/
theorem priority_sort_ordinals :
    (∀ t : Todo, sortVal "priority" t = SortVal.num (priorityOrder t.priority)) ∧
    priorityOrder Priority.high = 3 ∧
    priorityOrder Priority.medium = 2 ∧
    priorityOrder Priority.low = 1 ∧
    (filterAndSortTodos ⟨"", "all", "priority", "desc"⟩ 0
        [samplePrioLow, samplePrioHigh, samplePrioMed]).map Todo.id
      = ["p-high", "p-med", "p-low"] := by
  refine ⟨fun t => rfl, rfl, rfl, rfl, by decide⟩

/-! ### Claim C8 -/

/-- Claim C8: after a single-task delete, the deleted id is absent from the
selection set (the source filters `selectedTodos` in the delete handler,
beyond the three selection-clearing events the spec lists). -/
theorem delete_removes_id_from_selection (stored : List Todo)
    (selected : List String) (id : String) :
    id ∉ (deleteTodoG stored selected id).2 := by
  simp [deleteTodoG]

/-! ### Claim C9 -/

/-- Claim C9: the guest bulk `complete` and `uncomplete` actions preserve
the collection's length and order (stated positionally), set only the
completion flag and `updated_at` on every task whose id is in the batch,
and leave every other task entirely unchanged. -/
theorem bulk_complete_frame (stored : List Todo) (ids : List String) (now : Nat) :
    (bulkOperationG stored "complete" ids now).length = stored.length ∧
    (bulkOperationG stored "uncomplete" ids now).length = stored.length ∧
    (∀ i : Nat, ∀ t t' : Todo, stored[i]? = some t →
      (bulkOperationG stored "complete" ids now)[i]? = some t' →
      t'.id = t.id ∧ t'.text = t.text ∧ t'.description = t.description ∧
      t'.priority = t.priority ∧ t'.category = t.category ∧
      t'.due_date = t.due_date ∧ t'.reminder_date = t.reminder_date ∧
      t'.tags = t.tags ∧ t'.position = t.position ∧ t'.created_at = t.created_at ∧
      t'.completed = (if ids.contains t.id then true else t.completed) ∧
      t'.updated_at = (if ids.contains t.id then now else t.updated_at) ∧
      (ids.contains t.id = false → t' = t)) ∧
    (∀ i : Nat, ∀ t t' : Todo, stored[i]? = some t →
      (bulkOperationG stored "uncomplete" ids now)[i]? = some t' →
      t'.id = t.id ∧ t'.text = t.text ∧ t'.description = t.description ∧
      t'.priority = t.priority ∧ t'.category = t.category ∧
      t'.due_date = t.due_date ∧ t'.reminder_date = t.reminder_date ∧
      t'.tags = t.tags ∧ t'.position = t.position ∧ t'.created_at = t.created_at ∧
      t'.completed = (if ids.contains t.id then false else t.completed) ∧
      t'.updated_at = (if ids.contains t.id then now else t.updated_at) ∧
      (ids.contains t.id = false → t' = t)) := by
  have hce : bulkOperationG stored "complete" ids now
      = stored.map (fun u =>
          if ids.contains u.id then { u with completed := true, updated_at := now } else u) := rfl
  have hue : bulkOperationG stored "uncomplete" ids now
      = stored.map (fun u =>
          if ids.contains u.id then { u with completed := false, updated_at := now } else u) := rfl
  refine ⟨by simp [hce], by simp [hue], ?_, ?_⟩
  · intro i t t' h1 h2
    rw [hce, List.getElem?_map, h1] at h2
    simp only [Option.map_some', Option.some.injEq] at h2
    subst h2
    cases hc : ids.contains t.id <;> simp only [hc, if_true, if_false] <;> simp
  · intro i t t' h1 h2
    rw [hue, List.getElem?_map, h1] at h2
    simp only [Option.map_some', Option.some.injEq] at h2
    subst h2
    cases hc : ids.contains t.id <;> simp only [hc, if_true, if_false] <;> simp

/-- Closed witness for the bulk frame theorem, at a two-task collection
with one matched id. -/
theorem bulk_complete_frame_witness :
    ({ sampleActive with completed := true, updated_at := 77 } : Todo).id = sampleActive.id ∧
    ({ sampleActive with completed := true, updated_at := 77 } : Todo).completed
      = (if ["a1"].contains sampleActive.id then true else sampleActive.completed) := by
  have h := (bulk_complete_frame [sampleActive, sampleOver] ["a1"] 77).2.2.1
    0 sampleActive ({ sampleActive with completed := true, updated_at := 77 })
    (by decide) (by decide)
  exact ⟨h.1, h.2.2.2.2.2.2.2.2.2.2.1⟩

/-! ### Claim C10 -/

/-- Claim C10: the guest query engine's view only rearranges a
sub-collection of its input — every task of the view is an element of the
input collection, and no id occurs in the view more often than in the
input. -/
theorem view_is_subcollection (q : QuerySpec) (now : Nat) (l : List Todo) :
    (∀ t ∈ filterAndSortTodos q now l, t ∈ l) ∧
    (∀ id : String,
      (filterAndSortTodos q now l).countP (fun t => t.id = id)
        ≤ l.countP (fun t => t.id = id)) := by
  have h := filterAndSortTodos_subperm q now l
  exact ⟨fun t ht => h.subset ht, fun id => h.countP_le _⟩

/-- Closed witness for the sub-collection theorem: the overdue view over
`[sampleOver]` only contains elements of the input. -/
theorem view_is_subcollection_witness :
    sampleOver ∈ [sampleOver] :=
  (view_is_subcollection ⟨"", "overdue", "created_at", "desc"⟩ 100 [sampleOver]).1
    sampleOver (by decide)

/-! ### Claim C4 -/

/-- Claim C4, code bug.  In guest mode the stats snapshot always satisfies
`total = active + completed`.  In authenticated mode, however,
`todosAPI.getStats` builds an overview of shape
`{total, completed, pending, overdue}` — contradicting its own declared
`TodoStats` type, which requires `active` and `high_priority` fields and
has no `pending`.  The second conjunct evaluates the embedded reduction on
a one-task collection: the produced record is the four-field `ApiOverview`
shape (with `pending = 1`), not a `TodoStats`. -/
theorem stats_total_split_guest_only :
    (∀ (now : Nat) (l : List Todo),
      (calculateGuestStats now l).total
        = (calculateGuestStats now l).active + (calculateGuestStats now l).completed) ∧
    getStatsOverview 0 [sampleActive]
      = { total := 1, completed := 0, pending := 1, overdue := 0 } := by
  refine ⟨fun now l => ?_, by decide⟩
  simpa [calculateGuestStats] using (length_filter_not_add (fun t => t.completed) l).symm

/-! ### Claim C5 -/

/-- Claim C5, counterexample.  The claim says `toggle(id)` fails with
`NotFound` when the id is not in the loaded projection.  On the empty
projection, toggling id `"a"` leaves the state untouched and yields no
outcome at all (`none`): no update is attempted and nothing — in
particular no `NotFound` — is signalled. -/
theorem toggle_missing_id_is_silent :
    (toggleTodoG apiRefuse defaultQuery 5 ⟨[], []⟩ "a").2
        ≠ some (Except.error UpdErr.notFound) ∧
    toggleTodoG apiRefuse defaultQuery 5 ⟨[], []⟩ "a" = (⟨[], []⟩, none) := by
  decide

/-- Claim C5, amended.  `toggle(id)` with an id absent from the loaded
projection is a silent no-op: the state is unchanged and no failure is
signalled.  With the id present (found as `t`), it performs
`update(id, {completed := !t.completed})` and returns that update's
outcome. -/
theorem toggle_skips_or_updates (api : RemoteUpdate) (q : QuerySpec) (now : Nat)
    (st : GuestState) (id : String) :
    (st.projection.find? (fun t => t.id = id) = none →
      toggleTodoG api q now st id = (st, none)) ∧
    (∀ t : Todo, st.projection.find? (fun t => t.id = id) = some t →
      (toggleTodoG api q now st id).2
        = some (updateTodoG api st.stored id { completed := some (!t.completed) } now).result) := by
  constructor
  · intro h
    simp [toggleTodoG, h]
  · intro t h
    cases hr : (updateTodoG api st.stored id { completed := some (!t.completed) } now).result <;>
      simp [toggleTodoG, h, hr]

/-- Closed witness for the amended toggle theorem, at the empty
projection. -/
theorem toggle_skips_or_updates_witness :
    toggleTodoG apiRefuse defaultQuery 5 ⟨[], []⟩ "zz" = (⟨[], []⟩, none) :=
  (toggle_skips_or_updates apiRefuse defaultQuery 5 ⟨[], []⟩ "zz").1 rfl

/-! ### Claim C2 -/

/-- Claim C2, counterexample.  The claim says a guest-mode update of an
absent id is a no-op that signals `NotFound`.  Updating id `"zzz"` over the
stored collection `[sampleActive]` instead invokes the remote `update`
endpoint (the guest branch has no final `return`, so control falls through
to the authenticated-mode code) and surfaces the remote failure — not
`NotFound` — to the caller. -/
theorem update_missing_id_calls_remote :
    (updateTodoG apiRefuse [sampleActive] "zzz" {} 5).remoteCalled = true ∧
    (updateTodoG apiRefuse [sampleActive] "zzz" {} 5).result
        = Except.error (UpdErr.remote "remote failure") ∧
    (updateTodoG apiRefuse [sampleActive] "zzz" {} 5).result
        ≠ Except.error UpdErr.notFound := by
  decide

/-- Claim C2, amended.  For an id absent from the stored guest collection,
the guest-mode update leaves the stored collection unchanged, but it is not
a no-op: the remote `update` endpoint is invoked, and its outcome (wrapped
as a remote error on failure) — not a `NotFound` signal — is what the
caller observes. -/
theorem update_missing_id_falls_through (api : RemoteUpdate) (stored : List Todo)
    (id : String) (p : TodoPatch) (now : Nat)
    (h : stored.find? (fun t => t.id = id) = none) :
    (updateTodoG api stored id p now).stored = stored ∧
    (updateTodoG api stored id p now).remoteCalled = true ∧
    (updateTodoG api stored id p now).result
      = (match api id p with
          | .ok t => .ok t
          | .error e => .error (.remote e)) := by
  cases ha : api id p <;> simp [updateTodoG, h, ha]

/-- Closed witness for the fall-through theorem, over the empty stored
collection. -/
theorem update_missing_id_falls_through_witness :
    (updateTodoG apiRefuse [] "zzz" {} 5).stored = [] ∧
    (updateTodoG apiRefuse [] "zzz" {} 5).remoteCalled = true := by
  have h := update_missing_id_falls_through apiRefuse [] "zzz" {} 5 rfl
  exact ⟨h.1, h.2.1⟩

/-! ### Claim C3 -/

theorem searchStage_empty (l : List Todo) : searchStage "" l = l := rfl

theorem statusStage_active_eq (now : Nat) (l : List Todo) :
    statusStage "active" now l = l.filter (fun t => !t.completed) := rfl

theorem statusStage_completed_eq (now : Nat) (l : List Todo) :
    statusStage "completed" now l = l.filter (fun t => t.completed) := rfl

theorem statusStage_hp_eq (now : Nat) (l : List Todo) :
    statusStage "high-priority" now l
      = l.filter (fun t => t.priority == Priority.high && !t.completed) := rfl

theorem statusStage_overdue_eq (now : Nat) (l : List Todo) :
    statusStage "overdue" now l = l.filter (fun t => overdueAt now t) := rfl

theorem remote_active_eq (sb so : String) (c : List Todo) :
    remoteQueryModel (buildParams "active" "" sb so) c
      = c.filter (fun t => t.completed == false) := rfl

theorem remote_completed_eq (sb so : String) (c : List Todo) :
    remoteQueryModel (buildParams "completed" "" sb so) c
      = c.filter (fun t => t.completed == true) := rfl

theorem remote_overdue_eq (sb so : String) (c : List Todo) :
    remoteQueryModel (buildParams "overdue" "" sb so) c
      = c.filter (fun t => t.completed == false) := rfl

theorem remote_hp_eq (sb so : String) (c : List Todo) :
    remoteQueryModel (buildParams "high-priority" "" sb so) c
      = (c.filter (fun t => prioString t.priority == "high")).filter
          (fun t => t.completed == false) := rfl

/-- Claim C3, counterexample.  For the status filter `overdue` the two
modes do not select the same set: over the one-task collection
`[sampleActive]` (active, no due date) the guest engine's overdue view is
empty, while the remote query issued with the parameters the facade sends
for `overdue` (`completed = false` only — no due-date condition) selects
the task, even under the documented remote filter semantics. -/
theorem overdue_modes_disagree :
    sampleActive ∈ remoteQueryModel (buildParams "overdue" "" "created_at" "desc") [sampleActive] ∧
    sampleActive ∉ filterAndSortTodos ⟨"", "overdue", "created_at", "desc"⟩ 100 [sampleActive] := by
  decide

/-- Claim C3, amended.  With an empty search string, the guest query engine
and the modelled remote query (documented equality/substring semantics,
compared as sets) select the same tasks for the status filters `active`,
`completed` and `high-priority`; for `overdue` the facade sends only
`completed = false`, so the remote result is in general a strict superset:
every task of the guest overdue view (exactly those with a due timestamp
present, earlier than now, and completion flag false) is in the remote
result, but not conversely. -/
theorem guest_remote_query_agreement (c : List Todo) (now : Nat)
    (sb so : String) (t : Todo) :
    (t ∈ filterAndSortTodos ⟨"", "active", sb, so⟩ now c
      ↔ t ∈ remoteQueryModel (buildParams "active" "" sb so) c) ∧
    (t ∈ filterAndSortTodos ⟨"", "completed", sb, so⟩ now c
      ↔ t ∈ remoteQueryModel (buildParams "completed" "" sb so) c) ∧
    (t ∈ filterAndSortTodos ⟨"", "high-priority", sb, so⟩ now c
      ↔ t ∈ remoteQueryModel (buildParams "high-priority" "" sb so) c) ∧
    (t ∈ filterAndSortTodos ⟨"", "overdue", sb, so⟩ now c
      → t ∈ remoteQueryModel (buildParams "overdue" "" sb so) c) ∧
    (t ∈ filterAndSortTodos ⟨"", "overdue", sb, so⟩ now c
      ↔ (t ∈ c ∧ overdueAt now t = true)) := by
  refine ⟨?_, ?_, ?_, ?_, ?_⟩
  · rw [filterAndSortTodos, List.mem_insertionSort, searchStage_empty,
      statusStage_active_eq, remote_active_eq]
    simp [List.mem_filter]
  · rw [filterAndSortTodos, List.mem_insertionSort, searchStage_empty,
      statusStage_completed_eq, remote_completed_eq]
    simp [List.mem_filter]
  · rw [filterAndSortTodos, List.mem_insertionSort, searchStage_empty,
      statusStage_hp_eq, remote_hp_eq]
    simp only [List.mem_filter]
    cases hp : t.priority <;> simp [prioString, hp]
  · rw [filterAndSortTodos, List.mem_insertionSort, searchStage_empty,
      statusStage_overdue_eq, remote_overdue_eq]
    simp only [List.mem_filter, overdueAt]
    intro h
    rcases h with ⟨hm, hov⟩
    rcases Bool.and_eq_true_iff.mp hov with ⟨-, hc⟩
    simp_all
  · rw [filterAndSortTodos, List.mem_insertionSort, searchStage_empty,
      statusStage_overdue_eq]
    simp [List.mem_filter]

/-- Closed witness for the query-agreement theorem: a genuinely overdue
task is selected by both modes. -/
theorem guest_remote_query_agreement_witness :
    sampleOver ∈ remoteQueryModel (buildParams "overdue" "" "created_at" "desc") [sampleOver] :=
  (guest_remote_query_agreement [sampleOver] 100 "created_at" "desc" sampleOver).2.2.2.1
    (by decide)

/-! ### Claim C6 -/

theorem eq_of_id_nodup {l : List Todo} (h : (l.map Todo.id).Nodup) {a b : Todo}
    (ha : a ∈ l) (hb : b ∈ l) (hid : a.id = b.id) : a = b :=
  List.inj_on_of_nodup_map h ha hb hid

theorem find?_eq_some_of_mem {l : List Todo} {t : Todo} (ht : t ∈ l) :
    ∃ u, l.find? (fun v => v.id = t.id) = some u := by
  cases hf : l.find? (fun v => v.id = t.id) with
  | some u => exact ⟨u, rfl⟩
  | none =>
    have := List.find?_eq_none.mp hf t ht
    simp at this

theorem proj_perm_all (q : QuerySpec) (hq : q.filter = "all")
    (hs : q.searchQuery = "") (now : Nat) (l : List Todo) :
    (filterAndSortTodos q now l).Perm l := by
  unfold filterAndSortTodos
  rw [hs, hq, searchStage_empty]
  rw [show statusStage "all" now l = l from rfl]
  exact List.perm_insertionSort _ _

theorem find?_updateFirst (l : List Todo) (i : String) (f : Todo → Todo)
    (hf : ∀ u, (f u).id = u.id) :
    (updateFirst l i f).find? (fun v => v.id = i)
      = (l.find? (fun v => v.id = i)).map f := by
  induction l with
  | nil => rfl
  | cons a l ih =>
    by_cases h : a.id = i
    · rw [updateFirst, if_pos h]
      rw [List.find?_cons_of_pos _ (by simp [hf a, h]),
        List.find?_cons_of_pos _ (by simp [h])]
      rfl
    · rw [updateFirst, if_neg h]
      rw [List.find?_cons_of_neg _ (by simp [h]),
        List.find?_cons_of_neg _ (by simp [h]), ih]

theorem map_id_updateFirst (l : List Todo) (i : String) (f : Todo → Todo)
    (hf : ∀ u, (f u).id = u.id) :
    (updateFirst l i f).map Todo.id = l.map Todo.id := by
  induction l with
  | nil => rfl
  | cons a l ih =>
    rw [updateFirst]
    split
    · simp [hf]
    · simp [ih]

/-- One guest toggle over a well-formed state (projection computed from the
stored collection, ids nodup, toggled task `t` in the stored collection):
the toggle takes the found-update path, replacing `t` by its patched copy
and refreshing the projection; the patched copy is what a lookup of `t.id`
finds afterwards; and the id sequence of the collection is unchanged. -/
theorem toggle_step (api : RemoteUpdate) (q : QuerySpec) (hq : q.filter = "all")
    (hs : q.searchQuery = "") (now' now : Nat) (stored : List Todo) (t : Todo)
    (hnd : (stored.map Todo.id).Nodup) (ht : t ∈ stored) :
    toggleTodoG api q now ⟨stored, filterAndSortTodos q now' stored⟩ t.id
      = (⟨updateFirst stored t.id (fun u => applyPatch u { completed := some (!t.completed) } now),
          filterAndSortTodos q now
            (updateFirst stored t.id (fun u => applyPatch u { completed := some (!t.completed) } now))⟩,
        some (.ok (applyPatch t { completed := some (!t.completed) } now))) ∧
    (updateFirst stored t.id
        (fun u => applyPatch u { completed := some (!t.completed) } now)).find?
        (fun v => v.id = t.id)
      = some (applyPatch t { completed := some (!t.completed) } now) ∧
    (updateFirst stored t.id
        (fun u => applyPatch u { completed := some (!t.completed) } now)).map Todo.id
      = stored.map Todo.id := by
  have hperm := proj_perm_all q hq hs now' stored
  have htp : t ∈ filterAndSortTodos q now' stored := hperm.mem_iff.mpr ht
  obtain ⟨u, hu⟩ := find?_eq_some_of_mem htp
  have hu_id : u.id = t.id := by simpa using List.find?_some hu
  have hut : u = t :=
    eq_of_id_nodup hnd (hperm.mem_iff.mp (List.mem_of_find?_eq_some hu)) ht hu_id
  subst hut
  obtain ⟨a, ha⟩ := find?_eq_some_of_mem (l := stored) ht
  have ha_id : a.id = u.id := by simpa using List.find?_some ha
  have hau : a = u := eq_of_id_nodup hnd (List.mem_of_find?_eq_some ha) ht ha_id
  subst hau
  refine ⟨?_, ?_, map_id_updateFirst stored a.id
    (fun u => applyPatch u { completed := some (!a.completed) } now) (fun v => rfl)⟩
  · simp only [toggleTodoG, hu, updateTodoG, ha]
  · rw [find?_updateFirst stored a.id
      (fun u => applyPatch u { completed := some (!a.completed) } now) (fun v => rfl), ha]
    rfl

/-- Claim C6, counterexample.  The claim quantifies over every task in the
loaded projection, with no restriction on the query state; it fails under
the reachable status filter `active`.  On the stored collection
`[sampleActive]` with that filter, the task is in the loaded projection,
but the first toggle completes it and the refresh recomputes the (active)
projection without it, so the second toggle finds nothing and silently
no-ops (`none`): after the two toggles the persisted task still has
`completed = true` and `updated_at = 20` — the flag is not restored and no
second `updated_at` increase happens. -/
theorem toggle_twice_not_restored_under_active_filter :
    sampleActive ∈ filterAndSortTodos ⟨"", "active", "created_at", "desc"⟩ 0 [sampleActive] ∧
    (toggleTodoG apiRefuse ⟨"", "active", "created_at", "desc"⟩ 30
        (toggleTodoG apiRefuse ⟨"", "active", "created_at", "desc"⟩ 20
          ⟨[sampleActive], filterAndSortTodos ⟨"", "active", "created_at", "desc"⟩ 0 [sampleActive]⟩
          sampleActive.id).1
        sampleActive.id).2 = none ∧
    (toggleTodoG apiRefuse ⟨"", "active", "created_at", "desc"⟩ 30
        (toggleTodoG apiRefuse ⟨"", "active", "created_at", "desc"⟩ 20
          ⟨[sampleActive], filterAndSortTodos ⟨"", "active", "created_at", "desc"⟩ 0 [sampleActive]⟩
          sampleActive.id).1
        sampleActive.id).1.stored.find? (fun v => v.id = sampleActive.id)
      = some { sampleActive with completed := true, updated_at := 20 } ∧
    ({ sampleActive with completed := true, updated_at := 20 } : Todo).completed
      ≠ sampleActive.completed := by
  decide

/-- Claim C6, amended: with unique ids, the `all` filter and an empty
search (so the refresh after the first toggle keeps the task in the
projection, the projection being a permutation of the stored collection)
and a strictly advancing clock, toggling a projected task twice takes its
completion flag back to the original value, and each of the two toggles
strictly increases its `updated_at`.  Under a narrowing filter the second
toggle can silently no-op (see the counterexample above). -/
theorem toggle_twice_restores (api : RemoteUpdate) (q : QuerySpec)
    (now0 now1 now2 : Nat) (stored : List Todo) (t : Todo)
    (hq : q.filter = "all") (hs : q.searchQuery = "")
    (hnd : (stored.map Todo.id).Nodup)
    (ht : t ∈ filterAndSortTodos q now0 stored)
    (h1 : t.updated_at < now1) (h2 : now1 < now2) :
    ∃ t1 t2 : Todo,
      (toggleTodoG api q now1 ⟨stored, filterAndSortTodos q now0 stored⟩ t.id).1.stored.find?
          (fun v => v.id = t.id) = some t1 ∧
      (toggleTodoG api q now2
          (toggleTodoG api q now1 ⟨stored, filterAndSortTodos q now0 stored⟩ t.id).1
          t.id).1.stored.find? (fun v => v.id = t.id) = some t2 ∧
      t1.completed = !t.completed ∧
      t2.completed = t.completed ∧
      t.updated_at < t1.updated_at ∧
      t1.updated_at < t2.updated_at := by
  have htm : t ∈ stored := (proj_perm_all q hq hs now0 stored).mem_iff.mp ht
  obtain ⟨hstep1, hfind1, hmap1⟩ := toggle_step api q hq hs now0 now1 stored t hnd htm
  have hnd1 : ((updateFirst stored t.id
      (fun u => applyPatch u { completed := some (!t.completed) } now1)).map Todo.id).Nodup := by
    rw [hmap1]; exact hnd
  have ht1m : applyPatch t { completed := some (!t.completed) } now1
      ∈ updateFirst stored t.id (fun u => applyPatch u { completed := some (!t.completed) } now1) :=
    List.mem_of_find?_eq_some hfind1
  obtain ⟨hstep2, hfind2, hmap2⟩ := toggle_step api q hq hs now1 now2
    (updateFirst stored t.id (fun u => applyPatch u { completed := some (!t.completed) } now1))
    (applyPatch t { completed := some (!t.completed) } now1) hnd1 ht1m
  refine ⟨applyPatch t { completed := some (!t.completed) } now1,
    applyPatch (applyPatch t { completed := some (!t.completed) } now1)
      { completed := some (!(applyPatch t { completed := some (!t.completed) } now1).completed) } now2,
    ?_, ?_, rfl, ?_, h1, h2⟩
  · rw [hstep1]
    exact hfind1
  · have hredux : (toggleTodoG api q now1 ⟨stored, filterAndSortTodos q now0 stored⟩ t.id).1
        = ⟨updateFirst stored t.id (fun u => applyPatch u { completed := some (!t.completed) } now1),
            filterAndSortTodos q now1
              (updateFirst stored t.id
                (fun u => applyPatch u { completed := some (!t.completed) } now1))⟩ := by
      rw [hstep1]
    have hstep2c : toggleTodoG api q now2
        ⟨updateFirst stored t.id (fun u => applyPatch u { completed := some (!t.completed) } now1),
          filterAndSortTodos q now1
            (updateFirst stored t.id
              (fun u => applyPatch u { completed := some (!t.completed) } now1))⟩ t.id
        = (⟨updateFirst
              (updateFirst stored t.id
                (fun u => applyPatch u { completed := some (!t.completed) } now1))
              (applyPatch t { completed := some (!t.completed) } now1).id
              (fun u => applyPatch u
                { completed := some (!(applyPatch t { completed := some (!t.completed) } now1).completed) } now2),
            filterAndSortTodos q now2
              (updateFirst
                (updateFirst stored t.id
                  (fun u => applyPatch u { completed := some (!t.completed) } now1))
                (applyPatch t { completed := some (!t.completed) } now1).id
                (fun u => applyPatch u
                  { completed := some (!(applyPatch t { completed := some (!t.completed) } now1).completed) } now2))⟩,
          some (.ok (applyPatch (applyPatch t { completed := some (!t.completed) } now1)
            { completed := some (!(applyPatch t { completed := some (!t.completed) } now1).completed) } now2))) :=
      hstep2
    rw [hredux, hstep2c]
    exact hfind2
  · show (!(!t.completed)) = t.completed
    simp

/-- Closed witness for the toggle-twice theorem, on a one-task stored
collection with clocks 0, 20, 30. -/
theorem toggle_twice_restores_witness :
    ∃ t1 t2 : Todo,
      (toggleTodoG apiRefuse defaultQuery 20
          ⟨[sampleActive], filterAndSortTodos defaultQuery 0 [sampleActive]⟩
          sampleActive.id).1.stored.find?
          (fun v => v.id = sampleActive.id) = some t1 ∧
      (toggleTodoG apiRefuse defaultQuery 30
          (toggleTodoG apiRefuse defaultQuery 20
            ⟨[sampleActive], filterAndSortTodos defaultQuery 0 [sampleActive]⟩
            sampleActive.id).1
          sampleActive.id).1.stored.find?
          (fun v => v.id = sampleActive.id) = some t2 ∧
      t1.completed = !sampleActive.completed ∧
      t2.completed = sampleActive.completed ∧
      sampleActive.updated_at < t1.updated_at ∧
      t1.updated_at < t2.updated_at :=
  toggle_twice_restores apiRefuse defaultQuery 0 20 30 [sampleActive] sampleActive
    rfl rfl (by decide) (by decide) (by decide) (by decide)

end TodoFlow
